import Mathlib

/-!
Shallow embedding of `robusta_krr/core/integrations/kubernetes.py`
(classes `ClusterLoader` and `KubernetesLoader`).

Modelling conventions:
* Python exceptions are modelled with `Except String`: a raised exception is
  `Except.error msg`, a normal return is `Except.ok v`.
* `asyncio.gather(*tasks)` awaits all tasks, preserves the argument order in
  its result list, and re-raises the exception of a failing task; with a
  deterministic API client this is embedded as left-to-right sequencing
  (`exceptMapM` for a list of tasks, monadic `do` for a fixed tuple of tasks).
* The Kubernetes API client (`AppsV1Api` / `BatchV1Api` / `CoreV1Api`) is an
  external collaborator, modelled as a record of deterministic fallible
  operations (`ApiClient`).
* Python dicts preserve insertion order, so `match_labels` is an association
  list; `None`-able fields are `Option`s.
* `str.lower()` is embedded as `strLower` (ASCII lowercasing), because the
  operator strings involved are ASCII.
-/

/-- ASCII lowercasing of one character, as Python `str.lower` acts on the
ASCII operator strings compared by `_get_match_expression_filter`. -/
def lowerChar (c : Char) : Char :=
  if c.toNat ≥ 65 ∧ c.toNat ≤ 90 then Char.ofNat (c.toNat + 32) else c

/-- Embedding of Python `str.lower()` for the strings this code compares. -/
def strLower (s : String) : String :=
  ⟨s.data.map lowerChar⟩

/-- Sequencing of a list of fallible tasks: awaits each in order, collects the
results in order, and propagates the first error. This is the embedding of
`await asyncio.gather(*[...])` over a list comprehension of tasks, with a
deterministic client. -/
def exceptMapM {α β : Type} (f : α → Except String β) : List α → Except String (List β)
  | [] => Except.ok []
  | a :: l => do
    let b ← f a
    let bs ← exceptMapM f l
    Except.ok (b :: bs)

/-- A `matchExpressions` entry of a `V1LabelSelector`: `key`, `operator` and
an optional list of `values`. -/
structure MatchExpression where
  key : String
  operator : String
  values : Option (List String)
deriving Repr, DecidableEq

/-- Embedding of `kubernetes.client.models.V1LabelSelector`: `match_labels`
is an optional insertion-ordered mapping, `match_expressions` an optional
list. -/
structure V1LabelSelector where
  match_labels : Option (List (String × String))
  match_expressions : Option (List MatchExpression)
deriving Repr, DecidableEq

/-- The resource requests/limits attached to a container spec; the unit
strings are opaque and passed through unmodified. -/
structure ContainerResources where
  requests_cpu : Option String
  requests_memory : Option String
  limits_cpu : Option String
  limits_memory : Option String
deriving Repr, DecidableEq

/-- Embedding of `kubernetes.client.models.V1Container`: the container name
and its resource spec. -/
structure V1Container where
  name : String
  resources : ContainerResources
deriving Repr, DecidableEq

/-- Modelled from the spec: `ResourceAllocations` lives in
`robusta_krr/core/models/result.py`, which is not among the sources; the spec
says allocations are the requested/limit CPU and memory extracted from the
container's resource spec, each possibly absent. -/
structure ResourceAllocations where
  requests_cpu : Option String
  requests_memory : Option String
  limits_cpu : Option String
  limits_memory : Option String
deriving Repr, DecidableEq

/-- Modelled from the spec: `ResourceAllocations.from_container` (also in
`robusta_krr/core/models/result.py`, not among the sources) extracts the
container's requests/limits unmodified. -/
def ResourceAllocations.from_container (c : V1Container) : ResourceAllocations :=
  ⟨c.resources.requests_cpu, c.resources.requests_memory,
   c.resources.limits_cpu, c.resources.limits_memory⟩

/-- A pod as returned by `list_namespaced_pod`; only `metadata.name` is ever
read by the code under study. -/
structure V1Pod where
  name : String
deriving Repr, DecidableEq

/-- A workload object (`V1Deployment` / `V1StatefulSet` / `V1DaemonSet` /
`V1Job`): `className` is the Python `__class__.__name__` (e.g.
`"V1Deployment"`), the rest are the fields the code reads
(`metadata.namespace`, `metadata.name`, `spec.selector`,
`spec.template.spec.containers`). -/
structure Workload where
  className : String
  namespace_ : String
  name : String
  selector : V1LabelSelector
  containers : List V1Container
deriving Repr, DecidableEq

/-- Modelled from the spec: `K8sObjectData` lives in
`robusta_krr/core/models/objects.py`, which is not among the sources; its
fields are exactly the keyword arguments `ClusterLoader.__build_obj` passes
to its constructor. -/
structure K8sObjectData where
  cluster : Option String
  namespace_ : String
  name : String
  kind : String
  container : String
  allocations : ResourceAllocations
  pods : List String
deriving Repr, DecidableEq

/-- The per-cluster Kubernetes API client, as the narrow capability interface
the code consumes: the four cluster-wide workload list calls and the
namespaced pod list call (arguments: namespace, label selector). Each call is
deterministic and may fail. -/
structure ApiClient where
  list_deployment_for_all_namespaces : Except String (List Workload)
  list_stateful_set_for_all_namespaces : Except String (List Workload)
  list_daemon_set_for_all_namespaces : Except String (List Workload)
  list_job_for_all_namespaces : Except String (List Workload)
  list_namespaced_pod : String → String → Except String (List V1Pod)

/-- The configured namespace filter: the wildcard string `"*"` or an explicit
collection of namespace names. -/
inductive NamespaceFilter
  | star
  | explicit (nss : List String)
deriving Repr, DecidableEq

/-- The configured cluster filter: unset (`None`), the wildcard string `"*"`,
or an explicit collection of cluster names. -/
inductive ClusterFilter
  | unset
  | star
  | explicit (cs : List String)
deriving Repr, DecidableEq

/-- Python truthiness test `not self.config.clusters`: `None` and the empty
collection are falsy. -/
def ClusterFilter.falsy : ClusterFilter → Bool
  | .unset => true
  | .star => false
  | .explicit cs => cs.isEmpty

/-- Python membership test `name in self.config.clusters` for an explicit
cluster collection (the only case in which `list_clusters` reaches this
test). -/
def ClusterFilter.containsName : ClusterFilter → String → Bool
  | .explicit cs, n => cs.contains n
  | _, _ => false

/-- The externally supplied configuration fields this code reads:
`config.inside_cluster`, `config.namespaces`, `config.clusters`. -/
structure Config where
  inside_cluster : Bool
  namespaces : NamespaceFilter
  clusters : ClusterFilter
deriving Repr, DecidableEq

/-- One `ClusterLoader` instance: its cluster context name (`None` when bound
to the ambient in-cluster context) and the API client built for that
context. -/
structure ClusterLoader where
  cluster : Option String
  api : ApiClient

/-- Embedding of `ClusterLoader._get_match_expression_filter`. Operators
`exists` / `doesnotexist` are matched case-insensitively; any other operator
joins `expression.values` with commas, which raises a `TypeError` when
`values` is `None`. -/
def ClusterLoader._get_match_expression_filter (e : MatchExpression) : Except String String :=
  if strLower e.operator = "exists" then Except.ok e.key
  else if strLower e.operator = "doesnotexist" then Except.ok ("!" ++ e.key)
  else
    match e.values with
    | none => Except.error "TypeError: can only join an iterable"
    | some vs => Except.ok (e.key ++ " " ++ e.operator ++ " (" ++ String.intercalate "," vs ++ ")")

/-- Embedding of `ClusterLoader._build_selector_query`. The Python signature
is `-> Union[str, None]`, embedded as `Option String` inside the `Except`;
the body renders `selector.match_labels.items()` as `k=v` terms (raising an
`AttributeError` when `match_labels` is `None`), appends the rendered
`match_expressions` when present, and returns the comma join — note that the
body only ever returns a `str` (`some`), never `None`. -/
def ClusterLoader._build_selector_query (s : V1LabelSelector) : Except String (Option String) := do
  let label_filters ←
    match s.match_labels with
    | none => Except.error "AttributeError: NoneType object has no attribute items"
    | some ls => Except.ok (ls.map fun l => l.1 ++ "=" ++ l.2)
  let all_filters ←
    match s.match_expressions with
    | none => Except.ok label_filters
    | some es => do
      let ef ← exceptMapM ClusterLoader._get_match_expression_filter es
      Except.ok (label_filters ++ ef)
  Except.ok (some (String.intercalate "," all_filters))

/-- Embedding of `ClusterLoader.__list_pods`, instrumented with the list of
`(namespace, label_selector)` pod-list API calls it issues (first component):
builds the selector query, returns `[]` without any API call when the query
is `None` (dead in practice, since `_build_selector_query` never returns
`None`), and otherwise issues one `list_namespaced_pod` call and returns the
pod names in API response order. -/
def ClusterLoader.listPods (cl : ClusterLoader) (w : Workload) :
    Except String (List (String × String) × List String) := do
  let selector ← ClusterLoader._build_selector_query w.selector
  match selector with
  | none => Except.ok ([], [])
  | some sel => do
    let ret ← cl.api.list_namespaced_pod w.namespace_ sel
    Except.ok ([(w.namespace_, sel)], ret.map V1Pod.name)

/-- Embedding of `ClusterLoader.__build_obj`: one `K8sObjectData` per
(workload, container) pair; `kind` is `item.__class__.__name__[2:]`, `pods`
the result of `__list_pods(item)`. -/
def ClusterLoader.buildObj (cl : ClusterLoader) (item : Workload) (container : V1Container) :
    Except String K8sObjectData := do
  let pods ← cl.listPods item
  Except.ok
    ⟨cl.cluster, item.namespace_, item.name, item.className.drop 2, container.name,
     ResourceAllocations.from_container container, pods.2⟩

/-- The task list of the per-kind gather call, in comprehension order:
`[(item, container) for item in ret.items for container in
item.spec.template.spec.containers]`. -/
def ClusterLoader.buildTasks (items : List Workload) : List (Workload × V1Container) :=
  items.flatMap fun item => item.containers.map fun c => (item, c)

/-- Embedding of `ClusterLoader._list_deployments`: one cluster-wide list
call, then a gather of one `__build_obj` task per (workload, container)
pair. -/
def ClusterLoader._list_deployments (cl : ClusterLoader) : Except String (List K8sObjectData) := do
  let ret ← cl.api.list_deployment_for_all_namespaces
  exceptMapM (fun t => cl.buildObj t.1 t.2) (ClusterLoader.buildTasks ret)

/-- Embedding of `ClusterLoader._list_all_statefulsets`. -/
def ClusterLoader._list_all_statefulsets (cl : ClusterLoader) : Except String (List K8sObjectData) := do
  let ret ← cl.api.list_stateful_set_for_all_namespaces
  exceptMapM (fun t => cl.buildObj t.1 t.2) (ClusterLoader.buildTasks ret)

/-- Embedding of `ClusterLoader._list_all_daemon_set`. -/
def ClusterLoader._list_all_daemon_set (cl : ClusterLoader) : Except String (List K8sObjectData) := do
  let ret ← cl.api.list_daemon_set_for_all_namespaces
  exceptMapM (fun t => cl.buildObj t.1 t.2) (ClusterLoader.buildTasks ret)

/-- Embedding of `ClusterLoader._list_all_jobs`. -/
def ClusterLoader._list_all_jobs (cl : ClusterLoader) : Except String (List K8sObjectData) := do
  let ret ← cl.api.list_job_for_all_namespaces
  exceptMapM (fun t => cl.buildObj t.1 t.2) (ClusterLoader.buildTasks ret)

/-- The `try` block of `ClusterLoader.list_scannable_objects`:
`asyncio.gather` of the four kind listings (results in argument order,
first exception re-raised), then `itertools.chain(*objects_tuple)`. -/
def ClusterLoader.listAllKinds (cl : ClusterLoader) : Except String (List K8sObjectData) := do
  let d ← cl._list_deployments
  let s ← cl._list_all_statefulsets
  let ds ← cl._list_all_daemon_set
  let j ← cl._list_all_jobs
  Except.ok (d ++ s ++ ds ++ j)

/-- The namespace post-filter of `ClusterLoader.list_scannable_objects`:
under the wildcard, keep objects whose namespace is not `"kube-system"`;
under an explicit filter, keep objects whose namespace is a member. -/
def filterByNamespace (nsf : NamespaceFilter) (objs : List K8sObjectData) : List K8sObjectData :=
  match nsf with
  | .star => objs.filter fun o => decide (o.namespace_ ≠ "kube-system")
  | .explicit nss => objs.filter fun o => decide (o.namespace_ ∈ nss)

/-- Embedding of `ClusterLoader.list_scannable_objects`: on any exception
from the gathered kind listings, log and return `[]`; otherwise apply the
namespace filter. -/
def ClusterLoader.list_scannable_objects (cl : ClusterLoader) (cfg : Config) :
    List K8sObjectData :=
  match cl.listAllKinds with
  | .error _ => []
  | .ok objs => filterByNamespace cfg.namespaces objs

/-- The result of `config.list_kube_config_contexts()`: the enumerated
context names (in order) and the current context name. -/
structure KubeContexts where
  contexts : List String
  current_context : String
deriving Repr, DecidableEq

/-- Embedding of `KubernetesLoader.list_clusters`: inside a cluster, `None`
(the implicit-context sentinel); otherwise, a falsy cluster filter picks the
current context, the wildcard picks all enumerated contexts, and an explicit
collection picks the enumerated contexts that are members of it. -/
def KubernetesLoader.list_clusters (cfg : Config) (kube : KubeContexts) :
    Option (List String) :=
  if cfg.inside_cluster then none
  else if cfg.clusters.falsy then some [kube.current_context]
  else if cfg.clusters = ClusterFilter.star then some kube.contexts
  else some (kube.contexts.filter fun n => cfg.clusters.containsName n)

/-- Construction of one `ClusterLoader`: `apiFor` models
`config.new_client_from_config(context=cluster)` plus the API objects built
from it (`None` means the ambient in-cluster client). -/
def mkClusterLoader (apiFor : Option String → ApiClient) (cluster : Option String) :
    ClusterLoader :=
  ⟨cluster, apiFor cluster⟩

/-- The loader list built by `KubernetesLoader.list_scannable_objects`: one
ambient loader for the `None` sentinel, otherwise one loader per resolved
cluster name. -/
def mkLoaders (apiFor : Option String → ApiClient) (clusters : Option (List String)) :
    List ClusterLoader :=
  match clusters with
  | none => [mkClusterLoader apiFor none]
  | some cs => cs.map fun c => mkClusterLoader apiFor (some c)

/-- Embedding of `KubernetesLoader.list_scannable_objects`: gather the
per-cluster scans (each one returns a plain list, never raises) and flatten
with `itertools.chain`. -/
def KubernetesLoader.list_scannable_objects (cfg : Config)
    (apiFor : Option String → ApiClient) (clusters : Option (List String)) :
    List K8sObjectData :=
  ((mkLoaders apiFor clusters).map fun l => l.list_scannable_objects cfg).flatten

/-! ### Helper lemmas about the embedding -/

@[simp]
theorem except_ok_bind {α β : Type} (a : α) (f : α → Except String β) :
    (Except.ok a >>= f) = f a := rfl

@[simp]
theorem except_error_bind {α β : Type} (e : String) (f : α → Except String β) :
    ((Except.error e : Except String α) >>= f) = Except.error e := rfl

theorem exceptMapM_ok_of_forall {α β : Type} (f : α → Except String β) (g : α → β) :
    ∀ l : List α, (∀ a ∈ l, f a = Except.ok (g a)) → exceptMapM f l = Except.ok (l.map g)
  | [], _ => rfl
  | a :: l, h => by
    have ha : f a = Except.ok (g a) := h a (List.mem_cons_self a l)
    have hl := exceptMapM_ok_of_forall f g l (fun x hx => h x (List.mem_cons_of_mem a hx))
    simp [exceptMapM, ha, hl]

theorem exceptMapM_error_of_mem {α β : Type} (f : α → Except String β) :
    ∀ l : List α, (∃ a ∈ l, ∃ e, f a = Except.error e) →
      ∃ msg, exceptMapM f l = Except.error msg
  | [], h => by simp at h
  | a :: l, h => by
    cases hfa : f a with
    | error e => exact ⟨e, by simp [exceptMapM, hfa]⟩
    | ok b =>
      obtain ⟨x, hx, e, hxe⟩ := h
      rcases List.mem_cons.mp hx with rfl | hxl
      · rw [hfa] at hxe; cases hxe
      · obtain ⟨msg, hmsg⟩ := exceptMapM_error_of_mem f l ⟨x, hxl, e, hxe⟩
        exact ⟨msg, by simp [exceptMapM, hfa, hmsg]⟩

/-- The pod-name list `__list_pods` produces for a workload when it
succeeds. -/
def podNames (cl : ClusterLoader) (w : Workload) : List String :=
  match cl.listPods w with
  | .ok r => r.2
  | .error _ => []

/-- The record `__build_obj` produces for one (workload, container) pair on
success. -/
def mkObj (cl : ClusterLoader) (item : Workload) (c : V1Container) : K8sObjectData :=
  ⟨cl.cluster, item.namespace_, item.name, item.className.drop 2, c.name,
   ResourceAllocations.from_container c, podNames cl item⟩

/-- The full record list one kind listing produces from its workloads on
success: workloads in API order, containers in pod-template order. -/
def expandKind (cl : ClusterLoader) (items : List Workload) : List K8sObjectData :=
  items.flatMap fun item => item.containers.map fun c => mkObj cl item c

theorem mem_buildTasks {items : List Workload} {t : Workload × V1Container}
    (ht : t ∈ ClusterLoader.buildTasks items) : t.1 ∈ items ∧ t.2 ∈ t.1.containers := by
  simp only [ClusterLoader.buildTasks, List.mem_flatMap, List.mem_map] at ht
  obtain ⟨item, hi, c, hc, hm⟩ := ht
  cases hm
  exact ⟨hi, hc⟩

theorem buildObj_ok {cl : ClusterLoader} {w : Workload}
    (h : ∃ r, cl.listPods w = Except.ok r) (c : V1Container) :
    cl.buildObj w c = Except.ok (mkObj cl w c) := by
  obtain ⟨r, hr⟩ := h
  simp [ClusterLoader.buildObj, hr, mkObj, podNames]

theorem buildTasks_map_mkObj (cl : ClusterLoader) (items : List Workload) :
    (ClusterLoader.buildTasks items).map (fun t => mkObj cl t.1 t.2) = expandKind cl items := by
  simp only [ClusterLoader.buildTasks, expandKind, List.map_flatMap, List.map_map]
  rfl

theorem gatherBuild_ok (cl : ClusterLoader) (items : List Workload)
    (h : ∀ i ∈ items, ∃ r, cl.listPods i = Except.ok r) :
    exceptMapM (fun t => cl.buildObj t.1 t.2) (ClusterLoader.buildTasks items) =
      Except.ok (expandKind cl items) := by
  rw [← buildTasks_map_mkObj cl items]
  apply exceptMapM_ok_of_forall
  intro t ht
  exact buildObj_ok (h t.1 (mem_buildTasks ht).1) t.2

theorem listPods_error {cl : ClusterLoader} {w : Workload} {e : String}
    (h : ClusterLoader._build_selector_query w.selector = Except.error e) :
    cl.listPods w = Except.error e := by
  simp [ClusterLoader.listPods, h]

theorem buildObj_error {cl : ClusterLoader} {w : Workload} {e : String} (c : V1Container)
    (h : cl.listPods w = Except.error e) :
    cl.buildObj w c = Except.error e := by
  simp [ClusterLoader.buildObj, h]

theorem gatherBuild_error (cl : ClusterLoader) (items : List Workload) (w : Workload)
    (hw : w ∈ items) (hc : w.containers ≠ [])
    (he : ∃ e, ClusterLoader._build_selector_query w.selector = Except.error e) :
    ∃ msg, exceptMapM (fun t => cl.buildObj t.1 t.2) (ClusterLoader.buildTasks items) =
      Except.error msg := by
  obtain ⟨e, he⟩ := he
  obtain ⟨c, cs, hcs⟩ : ∃ c cs, w.containers = c :: cs := by
    cases hcase : w.containers with
    | nil => exact absurd hcase hc
    | cons c cs => exact ⟨c, cs, rfl⟩
  apply exceptMapM_error_of_mem
  refine ⟨(w, c), ?_, e, buildObj_error c (listPods_error he)⟩
  simp only [ClusterLoader.buildTasks, List.mem_flatMap, List.mem_map]
  exact ⟨w, hw, c, by simp [hcs], rfl⟩

/-- The rendering of one match-label pair, as described by the spec:
`k=v`. -/
def renderLabel (l : String × String) : String := l.1 ++ "=" ++ l.2

/-- The rendering of one match expression, as described by the spec:
`Exists` (case-insensitively) gives the bare key, `DoesNotExist` gives
`!key`, any other operator gives `key <operator> (v1,v2,...)` with the
operator passed through verbatim. -/
def renderExpr (e : MatchExpression) : String :=
  if strLower e.operator = "exists" then e.key
  else if strLower e.operator = "doesnotexist" then "!" ++ e.key
  else e.key ++ " " ++ e.operator ++ " (" ++ String.intercalate "," (e.values.getD []) ++ ")"

theorem get_match_expression_filter_ok (e : MatchExpression)
    (h : strLower e.operator ≠ "exists" → strLower e.operator ≠ "doesnotexist" →
      e.values.isSome) :
    ClusterLoader._get_match_expression_filter e = Except.ok (renderExpr e) := by
  unfold ClusterLoader._get_match_expression_filter renderExpr
  by_cases h1 : strLower e.operator = "exists"
  · simp [h1]
  by_cases h2 : strLower e.operator = "doesnotexist"
  · simp [h1, h2]
  have h3 := h h1 h2
  cases hv : e.values with
  | none => rw [hv] at h3; cases h3
  | some vs => simp [h1, h2, hv]

theorem list_deployments_ok (cl : ClusterLoader) (items : List Workload)
    (h1 : cl.api.list_deployment_for_all_namespaces = Except.ok items)
    (h2 : ∀ i ∈ items, ∃ r, cl.listPods i = Except.ok r) :
    cl._list_deployments = Except.ok (expandKind cl items) := by
  simp [ClusterLoader._list_deployments, h1, gatherBuild_ok cl items h2]

theorem list_statefulsets_ok (cl : ClusterLoader) (items : List Workload)
    (h1 : cl.api.list_stateful_set_for_all_namespaces = Except.ok items)
    (h2 : ∀ i ∈ items, ∃ r, cl.listPods i = Except.ok r) :
    cl._list_all_statefulsets = Except.ok (expandKind cl items) := by
  simp [ClusterLoader._list_all_statefulsets, h1, gatherBuild_ok cl items h2]

theorem list_daemonsets_ok (cl : ClusterLoader) (items : List Workload)
    (h1 : cl.api.list_daemon_set_for_all_namespaces = Except.ok items)
    (h2 : ∀ i ∈ items, ∃ r, cl.listPods i = Except.ok r) :
    cl._list_all_daemon_set = Except.ok (expandKind cl items) := by
  simp [ClusterLoader._list_all_daemon_set, h1, gatherBuild_ok cl items h2]

theorem list_jobs_ok (cl : ClusterLoader) (items : List Workload)
    (h1 : cl.api.list_job_for_all_namespaces = Except.ok items)
    (h2 : ∀ i ∈ items, ∃ r, cl.listPods i = Except.ok r) :
    cl._list_all_jobs = Except.ok (expandKind cl items) := by
  simp [ClusterLoader._list_all_jobs, h1, gatherBuild_ok cl items h2]

theorem listAllKinds_ok (cl : ClusterLoader) (deps sts dss jbs : List K8sObjectData)
    (h1 : cl._list_deployments = Except.ok deps)
    (h2 : cl._list_all_statefulsets = Except.ok sts)
    (h3 : cl._list_all_daemon_set = Except.ok dss)
    (h4 : cl._list_all_jobs = Except.ok jbs) :
    cl.listAllKinds = Except.ok (deps ++ sts ++ dss ++ jbs) := by
  simp [ClusterLoader.listAllKinds, h1, h2, h3, h4]

/-! ### Sample data used by the witness theorems -/

/-- A well-formed selector: `matchLabels = {app: web}`, no expressions. -/
def sampleSelector : V1LabelSelector := ⟨some [("app", "web")], none⟩

/-- A container with CPU/memory requests. -/
def sampleContainer : V1Container := ⟨"main", ⟨some "100m", some "64Mi", none, none⟩⟩

/-- A second container with no resources set. -/
def sidecarContainer : V1Container := ⟨"sidecar", ⟨none, none, none, none⟩⟩

/-- A two-container deployment in namespace `default`. -/
def sampleDeployment : Workload :=
  ⟨"V1Deployment", "default", "web", sampleSelector, [sampleContainer, sidecarContainer]⟩

/-- A one-container deployment in namespace `kube-system`. -/
def kubeSystemDeployment : Workload :=
  ⟨"V1Deployment", "kube-system", "dns", sampleSelector, [sampleContainer]⟩

/-- A healthy API client: two deployments, no other workloads, three pods
matching any pod query. -/
def sampleApi : ApiClient :=
  ⟨Except.ok [sampleDeployment, kubeSystemDeployment], Except.ok [], Except.ok [], Except.ok [],
   fun _ _ => Except.ok [⟨"pod-1"⟩, ⟨"pod-2"⟩, ⟨"pod-3"⟩]⟩

/-- The loader for the healthy sample cluster `prod`. -/
def sampleLoader : ClusterLoader := ⟨some "prod", sampleApi⟩

/-- A sample configuration with the wildcard namespace filter. -/
def cfgStar : Config := ⟨false, NamespaceFilter.star, ClusterFilter.unset⟩

/-- An API client whose every call raises. -/
def failingApi : ApiClient :=
  ⟨Except.error "ApiException", Except.error "ApiException", Except.error "ApiException",
   Except.error "ApiException", fun _ _ => Except.error "ApiException"⟩

/-- Client construction for the two-cluster sample: context `bad` gets the
failing client, any other context the healthy one. -/
def apiForSample : Option String → ApiClient :=
  fun c => if c = some "bad" then failingApi else sampleApi

/-! ### Claim theorems -/

/-- C1: the claim states that for a SelectorSpec with an empty match-labels
mapping and no match-expressions, `_build_selector_query` yields the explicit
no-selector result `None`, and `__list_pods` on a workload carrying such a
selector returns `[]` without issuing a pod-list API call. The code disagrees:
`",".join([])` is the empty string `""`, never `None`, so the `if selector is
None` guard in `__list_pods` never fires and one `list_namespaced_pod` call
with an empty label selector is issued. This theorem evaluates the code at
that input: the builder returns `some ""`, and the instrumented `__list_pods`
records exactly one issued call `("default", "")`. -/
theorem c1_empty_selector_issues_api_call :
    ClusterLoader._build_selector_query ⟨some [], none⟩ = Except.ok (some "") ∧
    sampleLoader.listPods ⟨"V1Deployment", "default", "unscoped", ⟨some [], none⟩, []⟩ =
      Except.ok ([("default", "")], ["pod-1", "pod-2", "pod-3"]) :=
  ⟨rfl, rfl⟩

/-- C2: for every SelectorSpec whose match-labels mapping is present and whose
non-`Exists`/non-`DoesNotExist` expressions all carry a values list,
`_build_selector_query` renders each match-label pair `(k, v)` as `k=v`, each
`Exists` expression (case-insensitively) as the bare key, each `DoesNotExist`
expression as `!key`, and each other expression as
`key <operator> (v1,v2,...)` with the operator passed through verbatim,
joining all terms with commas, match-label terms before expression terms
(and, when match-expressions is absent, just the match-label terms). -/
theorem c2_selector_rendering (ls : List (String × String)) (es : List MatchExpression)
    (h : ∀ e ∈ es, strLower e.operator ≠ "exists" → strLower e.operator ≠ "doesnotexist" →
      e.values.isSome) :
    ClusterLoader._build_selector_query ⟨some ls, some es⟩ =
      Except.ok (some (String.intercalate "," (ls.map renderLabel ++ es.map renderExpr))) ∧
    ClusterLoader._build_selector_query ⟨some ls, none⟩ =
      Except.ok (some (String.intercalate "," (ls.map renderLabel))) := by
  have hmap : exceptMapM ClusterLoader._get_match_expression_filter es =
      Except.ok (es.map renderExpr) :=
    exceptMapM_ok_of_forall _ renderExpr es
      (fun e he => get_match_expression_filter_ok e (h e he))
  constructor
  · simp [ClusterLoader._build_selector_query, hmap]
    rfl
  · simp [ClusterLoader._build_selector_query]
    rfl

/-- Sample match expressions covering all four operator forms. -/
def c2Exprs : List MatchExpression :=
  [⟨"tier", "Exists", none⟩, ⟨"debug", "DoesNotExist", none⟩,
   ⟨"env", "In", some ["a", "b"]⟩, ⟨"ver", "NotIn", some ["1"]⟩]

theorem c2_selector_rendering_witness :
    ClusterLoader._build_selector_query ⟨some [("app", "web")], some c2Exprs⟩ =
      Except.ok (some "app=web,tier,!debug,env In (a,b),ver NotIn (1)") :=
  ((c2_selector_rendering [("app", "web")] c2Exprs (by decide)).1).trans (by rfl)

/-- The object list the healthy sample cluster produces before namespace
filtering. -/
def sampleObjs : List K8sObjectData :=
  expandKind sampleLoader [sampleDeployment, kubeSystemDeployment]

/-- C3: for every discovered record list, the per-cluster result of
`list_scannable_objects` under the wildcard namespace filter contains exactly
the records whose namespace is not `"kube-system"`, and under an explicit
namespace set exactly the records whose namespace is a member of that set
(so `kube-system` is included iff listed, and it is the only namespace
excluded under the wildcard). -/
theorem c3_namespace_filter (cl : ClusterLoader) (cfg : Config) (objs : List K8sObjectData)
    (h : cl.listAllKinds = Except.ok objs) :
    (cfg.namespaces = NamespaceFilter.star →
      ∀ o : K8sObjectData, o ∈ cl.list_scannable_objects cfg ↔
        o ∈ objs ∧ o.namespace_ ≠ "kube-system") ∧
    (∀ nss : List String, cfg.namespaces = NamespaceFilter.explicit nss →
      ∀ o : K8sObjectData, o ∈ cl.list_scannable_objects cfg ↔
        o ∈ objs ∧ o.namespace_ ∈ nss) := by
  constructor
  · intro hs o
    simp [ClusterLoader.list_scannable_objects, h, hs, filterByNamespace, List.mem_filter]
  · intro nss hs o
    simp [ClusterLoader.list_scannable_objects, h, hs, filterByNamespace, List.mem_filter]

theorem c3_namespace_filter_witness :
    mkObj sampleLoader kubeSystemDeployment sampleContainer ∈
        sampleLoader.list_scannable_objects cfgStar ↔
      mkObj sampleLoader kubeSystemDeployment sampleContainer ∈ sampleObjs ∧
        (mkObj sampleLoader kubeSystemDeployment sampleContainer).namespace_ ≠ "kube-system" :=
  ((c3_namespace_filter sampleLoader cfgStar sampleObjs rfl).1 rfl)
    (mkObj sampleLoader kubeSystemDeployment sampleContainer)

/-- C4: if the gathered kind listings of a cluster raise, that cluster's
`list_scannable_objects` returns `[]` (the per-cluster scan never raises, as
its embedding returns a plain list); consequently, in a two-cluster scan where
the first cluster's client raises, `KubernetesLoader.list_scannable_objects`
equals exactly the healthy cluster's filtered output. -/
theorem c4_cluster_failure_isolation (cfg : Config) (apiFor : Option String → ApiClient)
    (cl : ClusterLoader) (a b e : String)
    (hcl : cl.listAllKinds = Except.error e)
    (hbad : (mkClusterLoader apiFor (some a)).listAllKinds = Except.error e) :
    cl.list_scannable_objects cfg = [] ∧
    KubernetesLoader.list_scannable_objects cfg apiFor (some [a, b]) =
      (mkClusterLoader apiFor (some b)).list_scannable_objects cfg := by
  constructor
  · simp [ClusterLoader.list_scannable_objects, hcl]
  · simp [KubernetesLoader.list_scannable_objects, mkLoaders,
      ClusterLoader.list_scannable_objects, hbad]

theorem c4_cluster_failure_isolation_witness :
    KubernetesLoader.list_scannable_objects cfgStar apiForSample (some ["bad", "prod"]) =
      (mkClusterLoader apiForSample (some "prod")).list_scannable_objects cfgStar :=
  (c4_cluster_failure_isolation cfgStar apiForSample
    (mkClusterLoader apiForSample (some "bad")) "bad" "prod" "ApiException" rfl rfl).2

/-- C5: `KubernetesLoader.list_clusters` returns the implicit-context sentinel
`none` when running inside a cluster; otherwise a falsy (unset or empty)
cluster filter returns exactly the current default context name, the wildcard
returns every enumerated context name, and an explicit nonempty set returns
exactly the enumerated context names that are members of it (unknown names
silently dropped by the filter). -/
theorem c5_cluster_resolution (cfg : Config) (kube : KubeContexts) :
    (cfg.inside_cluster = true → KubernetesLoader.list_clusters cfg kube = none) ∧
    (cfg.inside_cluster = false → cfg.clusters.falsy = true →
      KubernetesLoader.list_clusters cfg kube = some [kube.current_context]) ∧
    (cfg.inside_cluster = false → cfg.clusters = ClusterFilter.star →
      KubernetesLoader.list_clusters cfg kube = some kube.contexts) ∧
    (∀ cs : List String, cfg.inside_cluster = false →
      cfg.clusters = ClusterFilter.explicit cs → cs ≠ [] →
      KubernetesLoader.list_clusters cfg kube =
        some (kube.contexts.filter fun n => cs.contains n)) := by
  refine ⟨?_, ?_, ?_, ?_⟩
  · intro h1
    simp [KubernetesLoader.list_clusters, h1]
  · intro h1 h2
    simp [KubernetesLoader.list_clusters, h1, h2]
  · intro h1 h2
    simp [KubernetesLoader.list_clusters, h1, h2, ClusterFilter.falsy]
  · intro cs h1 h2 h3
    simp [KubernetesLoader.list_clusters, h1, h2, ClusterFilter.falsy,
      ClusterFilter.containsName, h3]

theorem c5_cluster_resolution_witness :
    KubernetesLoader.list_clusters
        ⟨false, NamespaceFilter.star, ClusterFilter.explicit ["a", "x"]⟩ ⟨["a", "b"], "b"⟩ =
      some ["a"] :=
  ((c5_cluster_resolution ⟨false, NamespaceFilter.star, ClusterFilter.explicit ["a", "x"]⟩
    ⟨["a", "b"], "b"⟩).2.2.2 ["a", "x"] rfl rfl (by decide)).trans (by rfl)

/-- C6: the orchestrator `KubernetesLoader.list_scannable_objects`
instantiates exactly one `ClusterLoader` bound to the ambient context
(`cluster = none`) for the implicit-context sentinel, otherwise exactly one
`ClusterLoader` per resolved cluster name (in order), and its return value is
the flat concatenation of the per-cluster (already namespace-filtered) result
lists. -/
theorem c6_orchestrator_fanout (cfg : Config) (apiFor : Option String → ApiClient)
    (cs : List String) :
    mkLoaders apiFor none = [mkClusterLoader apiFor none] ∧
    (mkClusterLoader apiFor none).cluster = none ∧
    (mkLoaders apiFor (some cs)).map ClusterLoader.cluster = cs.map some ∧
    KubernetesLoader.list_scannable_objects cfg apiFor none =
      ((mkLoaders apiFor none).map fun l => l.list_scannable_objects cfg).flatten ∧
    KubernetesLoader.list_scannable_objects cfg apiFor (some cs) =
      ((mkLoaders apiFor (some cs)).map fun l => l.list_scannable_objects cfg).flatten := by
  refine ⟨rfl, rfl, ?_, rfl, rfl⟩
  simp [mkLoaders, mkClusterLoader, List.map_map, Function.comp]

/-- C7: for every successful deployment listing returning workloads `items`
(with all pod correlations succeeding), the kind contributes exactly one
record per (workload, container) pair, in order — so `Σ Cᵢ` records in total —
and within one workload the records share cluster, namespace, name, kind and
pods, differing only in the container name and allocations. -/
theorem c7_one_record_per_container (cl : ClusterLoader) (items : List Workload)
    (h1 : cl.api.list_deployment_for_all_namespaces = Except.ok items)
    (h2 : ∀ i ∈ items, ∃ r, cl.listPods i = Except.ok r) :
    cl._list_deployments = Except.ok (expandKind cl items) ∧
    (expandKind cl items).length = (items.map fun i => i.containers.length).sum ∧
    ∀ i ∈ items, ∀ c ∈ i.containers, mkObj cl i c =
      ⟨cl.cluster, i.namespace_, i.name, i.className.drop 2, c.name,
       ResourceAllocations.from_container c, podNames cl i⟩ := by
  refine ⟨list_deployments_ok cl items h1 h2, ?_, ?_⟩
  · simp [expandKind, List.length_flatMap, Function.comp_def]
  · intro i _ c _
    rfl

theorem c7_one_record_per_container_witness :
    sampleLoader._list_deployments =
      Except.ok (expandKind sampleLoader [sampleDeployment, kubeSystemDeployment]) :=
  (c7_one_record_per_container sampleLoader [sampleDeployment, kubeSystemDeployment] rfl
    (by
      intro i hi
      rcases List.mem_cons.mp hi with rfl | hi2
      · exact ⟨_, rfl⟩
      rcases List.mem_cons.mp hi2 with rfl | h
      · exact ⟨_, rfl⟩
      · cases h)).1

/-- C8: for every workload whose selector renders to a non-absent query `sel`,
`__list_pods` issues exactly one pod-list query, scoped to the workload's
namespace with the rendered selector (the instrumented call trace is exactly
`[(namespace, sel)]`), and returns the pod names in exactly the order of the
API response, retaining only names, no pod objects. -/
theorem c8_pod_correlation (cl : ClusterLoader) (w : Workload) (sel : String)
    (pods : List V1Pod)
    (h1 : ClusterLoader._build_selector_query w.selector = Except.ok (some sel))
    (h2 : cl.api.list_namespaced_pod w.namespace_ sel = Except.ok pods) :
    cl.listPods w = Except.ok ([(w.namespace_, sel)], pods.map V1Pod.name) := by
  simp [ClusterLoader.listPods, h1, h2]

theorem c8_pod_correlation_witness :
    sampleLoader.listPods sampleDeployment =
      Except.ok ([("default", "app=web")],
        ([⟨"pod-1"⟩, ⟨"pod-2"⟩, ⟨"pod-3"⟩] : List V1Pod).map V1Pod.name) :=
  c8_pod_correlation sampleLoader sampleDeployment "app=web" [⟨"pod-1"⟩, ⟨"pod-2"⟩, ⟨"pod-3"⟩]
    rfl rfl

/-- C9: if a listed workload's selector has an absent match-labels mapping, or
a non-`Exists`/non-`DoesNotExist` match-expression whose values field is
absent, `_build_selector_query` raises instead of returning a query string,
and via the fail-soft boundary the whole cluster contributes an empty result
set: `list_scannable_objects` returns `[]`, dropping the cluster's healthy
workloads as well. -/
theorem c9_malformed_selector_fails_cluster (cl : ClusterLoader) (cfg : Config)
    (items : List Workload) (w : Workload)
    (h1 : cl.api.list_deployment_for_all_namespaces = Except.ok items)
    (h2 : w ∈ items) (h3 : w.containers ≠ [])
    (h4 : w.selector.match_labels = none ∨
      ∃ es, w.selector.match_expressions = some es ∧
        ∃ e ∈ es, strLower e.operator ≠ "exists" ∧ strLower e.operator ≠ "doesnotexist" ∧
          e.values = none) :
    (∃ msg, ClusterLoader._build_selector_query w.selector = Except.error msg) ∧
    (∃ msg, cl.listAllKinds = Except.error msg) ∧
    cl.list_scannable_objects cfg = [] := by
  have hsel : ∃ msg, ClusterLoader._build_selector_query w.selector = Except.error msg := by
    rcases h4 with hml | ⟨es, hes, e, hein, hne1, hne2, hval⟩
    · exact ⟨"AttributeError: NoneType object has no attribute items",
        by simp [ClusterLoader._build_selector_query, hml]⟩
    · cases hml : w.selector.match_labels with
      | none =>
        exact ⟨"AttributeError: NoneType object has no attribute items",
          by simp [ClusterLoader._build_selector_query, hml]⟩
      | some ls =>
        have hexpr : ClusterLoader._get_match_expression_filter e =
            Except.error "TypeError: can only join an iterable" := by
          simp [ClusterLoader._get_match_expression_filter, hne1, hne2, hval]
        obtain ⟨msg, hmsg⟩ := exceptMapM_error_of_mem
          ClusterLoader._get_match_expression_filter es ⟨e, hein, _, hexpr⟩
        exact ⟨msg, by simp [ClusterLoader._build_selector_query, hml, hes, hmsg]⟩
  have hdep : ∃ msg, cl._list_deployments = Except.error msg := by
    obtain ⟨msg, hmsg⟩ := gatherBuild_error cl items w h2 h3 hsel
    exact ⟨msg, by simp [ClusterLoader._list_deployments, h1, hmsg]⟩
  obtain ⟨msg, hmsg⟩ := hdep
  have hall : cl.listAllKinds = Except.error msg := by
    simp [ClusterLoader.listAllKinds, hmsg]
  exact ⟨hsel, ⟨msg, hall⟩,
    by simp [ClusterLoader.list_scannable_objects, hall]⟩

/-- A deployment whose selector has `match_labels = None`. -/
def malformedWorkload : Workload :=
  ⟨"V1Deployment", "default", "broken", ⟨none, none⟩, [sampleContainer]⟩

/-- An API client listing one healthy-looking call set in which the
deployments include the malformed workload. -/
def malformedApi : ApiClient :=
  ⟨Except.ok [sampleDeployment, malformedWorkload], Except.ok [], Except.ok [], Except.ok [],
   fun _ _ => Except.ok [⟨"pod-1"⟩]⟩

theorem c9_malformed_selector_fails_cluster_witness :
    (ClusterLoader.mk (some "prod") malformedApi).list_scannable_objects cfgStar = [] :=
  (c9_malformed_selector_fails_cluster (ClusterLoader.mk (some "prod") malformedApi) cfgStar
    [sampleDeployment, malformedWorkload] malformedWorkload rfl
    (List.mem_cons_of_mem _ (List.mem_cons_self _ _)) (by decide) (Or.inl rfl)).2.2

/-- C10: on a successful per-cluster scan the emission order is deterministic
given the API responses: the result is the namespace filter applied to the
concatenation deployments ++ statefulsets ++ daemonsets ++ jobs, and the
deployment block (like every kind block) is ordered by the API's returned
workload order and, within a workload, by the pod template container order
(`expandKind`). -/
theorem c10_deterministic_order (cl : ClusterLoader) (cfg : Config)
    (deps sts dss jbs : List K8sObjectData)
    (h1 : cl._list_deployments = Except.ok deps)
    (h2 : cl._list_all_statefulsets = Except.ok sts)
    (h3 : cl._list_all_daemon_set = Except.ok dss)
    (h4 : cl._list_all_jobs = Except.ok jbs) :
    cl.listAllKinds = Except.ok (deps ++ sts ++ dss ++ jbs) ∧
    cl.list_scannable_objects cfg = filterByNamespace cfg.namespaces (deps ++ sts ++ dss ++ jbs) ∧
    ∀ items, cl.api.list_deployment_for_all_namespaces = Except.ok items →
      (∀ i ∈ items, ∃ r, cl.listPods i = Except.ok r) →
      deps = expandKind cl items := by
  have hall := listAllKinds_ok cl deps sts dss jbs h1 h2 h3 h4
  refine ⟨hall, ?_, ?_⟩
  · simp [ClusterLoader.list_scannable_objects, hall]
  · intro items hi hp
    have hchar := list_deployments_ok cl items hi hp
    rw [h1] at hchar
    exact Except.ok.inj hchar

theorem c10_deterministic_order_witness :
    sampleLoader.listAllKinds =
      Except.ok (expandKind sampleLoader [sampleDeployment, kubeSystemDeployment] ++
        [] ++ [] ++ []) :=
  (c10_deterministic_order sampleLoader cfgStar
    (expandKind sampleLoader [sampleDeployment, kubeSystemDeployment]) [] [] []
    rfl rfl rfl rfl).1
